import Mathlib

/-
Verification of timm/models/sknet.py: Selective Kernel ResNet blocks and
the three factory functions (skresnet18, sksresnet18, skresnet26d).

The repository ships a single source file.  External collaborators
(ResNet backbone builder, SelectiveKernelConv, ConvBnAct, SEModule,
load_pretrained, IMAGENET default statistics) are black boxes per the
specification; they are modelled here as records of the constructor
arguments the source passes to them, with any internal detail that a
property needs marked explicitly as modelled from the spec.
-/

namespace Sknet

/-- Modelled from the spec: IMAGENET_DEFAULT_MEAN and IMAGENET_DEFAULT_STD are
external named constants from timm.data (normalization statistics); their
numeric values are irrelevant to every property, so they are symbols. -/
inductive StatConst where
  | imagenetDefaultMean
  | imagenetDefaultStd
  deriving DecidableEq, Repr

/-- Value type of the configuration dict built by `_cfg`: strings (url,
interpolation, first_conv, classifier), naturals (num_classes), the
input_size triple, the pool_size pair, the crop_pct rational, and the
mean/std statistics constants. -/
inductive CfgVal where
  | s (v : String)
  | n (v : Nat)
  | triple (a b c : Nat)
  | pair (a b : Nat)
  | q (v : Rat)
  | stat (v : StatConst)
  deriving DecidableEq, Repr

/-- A Python dict with string keys, as an ordered association list. -/
abbrev Dict := List (String × CfgVal)

/-- Insert-or-replace one key, keeping the original position of an existing
key and appending a fresh key at the end, as Python dict update does. -/
def dictSet (d : Dict) (k : String) (v : CfgVal) : Dict :=
  if d.any (fun p => p.1 = k) then
    d.map (fun p => if p.1 = k then (k, v) else p)
  else
    d ++ [(k, v)]

/-- Python dict merge \x7b**base, **kw\x7d: entries of kw override base. -/
def dictUpdate (d kw : Dict) : Dict :=
  kw.foldl (fun acc p => dictSet acc p.1 p.2) d

/-- Default value of the url parameter of `_cfg` (the empty string). -/
def cfgDefaultUrl : String := ""

/-- Embedding of `_cfg`: the base configuration dict with the given url,
merged with the keyword overrides. -/
def _cfg (url : String) (kwargs : Dict) : Dict :=
  dictUpdate
    [ ("url", CfgVal.s url),
      ("num_classes", CfgVal.n 1000),
      ("input_size", CfgVal.triple 3 224 224),
      ("pool_size", CfgVal.pair 7 7),
      ("crop_pct", CfgVal.q (0.875 : Rat)),
      ("interpolation", CfgVal.s "bilinear"),
      ("mean", CfgVal.stat StatConst.imagenetDefaultMean),
      ("std", CfgVal.stat StatConst.imagenetDefaultStd),
      ("first_conv", CfgVal.s "conv1"),
      ("classifier", CfgVal.s "fc") ]
    kwargs

/-- Embedding of the module-level `default_cfgs` table: skresnet18 passes
url explicitly as the empty string, skresnet26d relies on the default. -/
def default_cfgs : List (String × Dict) :=
  [ ("skresnet18", _cfg "" []),
    ("skresnet26d", _cfg cfgDefaultUrl []) ]

/-- Modelled from the spec: the activation layer class (nn.ReLU in every call
of this file); an external primitive, kept as a symbol. -/
inductive ActLayer where
  | relu
  deriving DecidableEq, Repr

/-- Modelled from the spec: the normalization layer class (nn.BatchNorm2d in
every call of this file); an external primitive, kept as a symbol. -/
inductive NormLayer where
  | batchNorm2d
  deriving DecidableEq, Repr

/-- Modelled from the spec: a normalization layer owns a per-channel scale
parameter (weight) and shift parameter (bias); the framework initializes the
scale to ones and the shift to zeros at construction. -/
structure BatchNorm where
  weight : List Rat
  bias : List Rat
  deriving DecidableEq, Repr

/-- Fresh normalization parameters for a layer of n output channels. -/
def BatchNorm.fresh (n : Nat) : BatchNorm :=
  { weight := List.replicate n 1, bias := List.replicate n 0 }

/-- The conv_kwargs dict assembled by each block constructor:
drop_block, act_layer, norm_layer. -/
structure ConvKwargs where
  drop_block : Option Unit
  act_layer : Option ActLayer
  norm_layer : NormLayer
  deriving DecidableEq, Repr

/-- The sk_kwargs dict forwarded to the selective-kernel convolution; the
source only ever populates the keys min_attn_channels, split_input and
keep_3x3, so each is an optional field (none = key absent). -/
structure SkKwargs where
  min_attn_channels : Option Nat := none
  split_input : Option Bool := none
  keep_3x3 : Option Bool := none
  deriving DecidableEq, Repr

/-- Modelled from the spec: ConvBnAct is the external plain
convolution+normalization+activation primitive; the record holds the
constructor arguments the source passes plus the normalization parameters
(needed by zero_init_last_bn). -/
structure ConvBnAct where
  in_channels : Nat
  out_channels : Nat
  kernel_size : Nat
  stride : Nat
  dilation : Nat
  drop_block : Option Unit
  act_layer : Option ActLayer
  norm_layer : NormLayer
  bn : BatchNorm
  deriving DecidableEq, Repr

/-- Build a ConvBnAct from the arguments passed at a call site, with fresh
normalization parameters. -/
def ConvBnAct.make (in_channels out_channels kernel_size stride dilation : Nat)
    (ck : ConvKwargs) : ConvBnAct :=
  { in_channels := in_channels, out_channels := out_channels,
    kernel_size := kernel_size, stride := stride, dilation := dilation,
    drop_block := ck.drop_block, act_layer := ck.act_layer,
    norm_layer := ck.norm_layer, bn := BatchNorm.fresh out_channels }

/-- Modelled from the spec: SelectiveKernelConv is the external multi-branch
attention convolution primitive; the record holds the constructor arguments
the source passes (conv_kwargs and sk_kwargs are splatted into it). -/
structure SelectiveKernelConv where
  in_channels : Nat
  out_channels : Nat
  stride : Nat
  dilation : Nat
  groups : Nat
  drop_block : Option Unit
  act_layer : Option ActLayer
  norm_layer : NormLayer
  sk : SkKwargs
  deriving DecidableEq, Repr

/-- Modelled from the spec: SEModule is the external squeeze-excite
channel-attention primitive; the record holds its two constructor arguments. -/
structure SEModule where
  channels : Nat
  reduction_channels : Nat
  deriving DecidableEq, Repr

/-- A conv stage of the basic block is either the selective-kernel
convolution or the plain conv+norm stage, depending on the internal flag. -/
inductive ConvStage where
  | sk (c : SelectiveKernelConv)
  | cba (c : ConvBnAct)
  deriving DecidableEq, Repr

/-- Output channel count of a conv stage. -/
def ConvStage.outChannels : ConvStage → Nat
  | ConvStage.sk c => c.out_channels
  | ConvStage.cba c => c.out_channels

/-- Constructor arguments of SelectiveKernelBasic, with the Python default
values. downsample, drop_block and drop_path are external modules whose
only observable role here is presence or absence. -/
structure BasicArgs where
  inplanes : Nat
  planes : Nat
  stride : Nat := 1
  downsample : Option Unit := none
  cardinality : Nat := 1
  base_width : Nat := 64
  use_se : Bool := false
  sk_kwargs : Option SkKwargs := none
  reduce_first : Nat := 1
  dilation : Nat := 1
  first_dilation : Option Nat := none
  drop_block : Option Unit := none
  drop_path : Option Unit := none
  act_layer : ActLayer := ActLayer.relu
  norm_layer : NormLayer := NormLayer.batchNorm2d
  deriving DecidableEq, Repr

/-- The constructed SelectiveKernelBasic module: its owned sub-layers and
stored attributes. -/
structure SelectiveKernelBasic where
  conv1 : ConvStage
  conv2 : ConvStage
  se : Option SEModule
  act : ActLayer
  downsample : Option Unit
  stride : Nat
  dilation : Nat
  drop_block : Option Unit
  drop_path : Option Unit
  deriving DecidableEq, Repr

/-- Class attribute SelectiveKernelBasic.expansion = 1. -/
def SelectiveKernelBasic.expansion : Nat := 1

/-- The internal flag _selective_first of SelectiveKernelBasic.__init__,
a literal True in the source (marked FIXME temporary there). -/
def _selective_first : Bool := true

/-- Embedding of SelectiveKernelBasic.__init__.  The two assert statements
are the failure modes (Except.error with the assert message); everything
else mirrors the source line by line. -/
def SelectiveKernelBasic.init (a : BasicArgs) : Except String SelectiveKernelBasic :=
  let sk_kwargs := a.sk_kwargs.getD {}
  let conv_kwargs : ConvKwargs :=
    { drop_block := a.drop_block, act_layer := some a.act_layer, norm_layer := a.norm_layer }
  if a.cardinality = 1 then
    if a.base_width = 64 then
      let first_planes := a.planes / a.reduce_first
      let out_planes := a.planes * SelectiveKernelBasic.expansion
      let first_dilation := a.first_dilation.getD a.dilation
      let (conv1, conv2) :=
        if _selective_first then
          let conv1 := ConvStage.sk
            { in_channels := a.inplanes, out_channels := first_planes,
              stride := a.stride, dilation := first_dilation, groups := 1,
              drop_block := conv_kwargs.drop_block, act_layer := conv_kwargs.act_layer,
              norm_layer := conv_kwargs.norm_layer, sk := sk_kwargs }
          let conv_kwargs := { conv_kwargs with act_layer := none }
          let conv2 := ConvStage.cba
            (ConvBnAct.make first_planes out_planes 3 1 a.dilation conv_kwargs)
          (conv1, conv2)
        else
          let conv1 := ConvStage.cba
            (ConvBnAct.make a.inplanes first_planes 3 a.stride first_dilation conv_kwargs)
          let conv_kwargs := { conv_kwargs with act_layer := none }
          let conv2 := ConvStage.sk
            { in_channels := first_planes, out_channels := out_planes,
              stride := 1, dilation := a.dilation, groups := 1,
              drop_block := conv_kwargs.drop_block, act_layer := conv_kwargs.act_layer,
              norm_layer := conv_kwargs.norm_layer, sk := sk_kwargs }
          (conv1, conv2)
      Except.ok
        { conv1 := conv1, conv2 := conv2,
          se := if a.use_se then some { channels := out_planes, reduction_channels := a.planes / 4 } else none,
          act := a.act_layer, downsample := a.downsample, stride := a.stride,
          dilation := a.dilation, drop_block := a.drop_block, drop_path := a.drop_path }
    else
      Except.error "BasicBlock doest not support changing base width"
  else
    Except.error "BasicBlock only supports cardinality of 1"

/-- Embedding of SelectiveKernelBasic.zero_init_last_bn: zeroes the scale
parameter of the normalization layer of conv2.  When conv2 is the
selective-kernel stage (the dead second-position branch) the external module
does not expose a bn attribute, so the access is modelled as failing. -/
def SelectiveKernelBasic.zero_init_last_bn (b : SelectiveKernelBasic) :
    Option SelectiveKernelBasic :=
  match b.conv2 with
  | ConvStage.cba c =>
      let c2 := { c with bn := { c.bn with weight := List.replicate c.bn.weight.length 0 } }
      some { b with conv2 := ConvStage.cba c2 }
  | ConvStage.sk _ => none

/-- Constructor arguments of SelectiveKernelBottleneck, with the Python
default values. -/
structure BottleneckArgs where
  inplanes : Nat
  planes : Nat
  stride : Nat := 1
  downsample : Option Unit := none
  cardinality : Nat := 1
  base_width : Nat := 64
  use_se : Bool := false
  sk_kwargs : Option SkKwargs := none
  reduce_first : Nat := 1
  dilation : Nat := 1
  first_dilation : Option Nat := none
  drop_block : Option Unit := none
  drop_path : Option Unit := none
  act_layer : ActLayer := ActLayer.relu
  norm_layer : NormLayer := NormLayer.batchNorm2d
  deriving DecidableEq, Repr

/-- The constructed SelectiveKernelBottleneck module. -/
structure SelectiveKernelBottleneck where
  conv1 : ConvBnAct
  conv2 : SelectiveKernelConv
  conv3 : ConvBnAct
  se : Option SEModule
  act : ActLayer
  downsample : Option Unit
  stride : Nat
  dilation : Nat
  drop_block : Option Unit
  drop_path : Option Unit
  deriving DecidableEq, Repr

/-- Class attribute SelectiveKernelBottleneck.expansion = 4. -/
def SelectiveKernelBottleneck.expansion : Nat := 4

/-- Embedding of SelectiveKernelBottleneck.__init__.  It has no assert, so
construction always succeeds; the width formula
int(math.floor(planes * (base_width / 64)) * cardinality) is embedded with
exact arithmetic as planes * base_width / 64 * cardinality in Nat. -/
def SelectiveKernelBottleneck.init (a : BottleneckArgs) :
    Except String SelectiveKernelBottleneck :=
  let sk_kwargs := a.sk_kwargs.getD {}
  let conv_kwargs : ConvKwargs :=
    { drop_block := a.drop_block, act_layer := some a.act_layer, norm_layer := a.norm_layer }
  let width := a.planes * a.base_width / 64 * a.cardinality
  let first_planes := width / a.reduce_first
  let out_planes := a.planes * SelectiveKernelBottleneck.expansion
  let first_dilation := a.first_dilation.getD a.dilation
  let conv1 := ConvBnAct.make a.inplanes first_planes 1 1 1 conv_kwargs
  let conv2 : SelectiveKernelConv :=
    { in_channels := first_planes, out_channels := width,
      stride := a.stride, dilation := first_dilation, groups := a.cardinality,
      drop_block := conv_kwargs.drop_block, act_layer := conv_kwargs.act_layer,
      norm_layer := conv_kwargs.norm_layer, sk := sk_kwargs }
  let conv_kwargs := { conv_kwargs with act_layer := none }
  let conv3 := ConvBnAct.make width out_planes 1 1 1 conv_kwargs
  Except.ok
    { conv1 := conv1, conv2 := conv2, conv3 := conv3,
      se := if a.use_se then some { channels := out_planes, reduction_channels := a.planes / 4 } else none,
      act := a.act_layer, downsample := a.downsample, stride := a.stride,
      dilation := a.dilation, drop_block := a.drop_block, drop_path := a.drop_path }

/-- Embedding of SelectiveKernelBottleneck.zero_init_last_bn: zeroes the
scale parameter of the normalization layer of conv3. -/
def SelectiveKernelBottleneck.zero_init_last_bn (b : SelectiveKernelBottleneck) :
    SelectiveKernelBottleneck :=
  { b with conv3 :=
    { b.conv3 with bn :=
      { b.conv3.bn with weight := List.replicate b.conv3.bn.weight.length 0 } } }

/-- Symbolic tensor expressions: the forward pass of a block is embedded as
a transformer of symbolic expressions, each external sub-module application
being a free constructor.  var is the input tensor given to forward. -/
inductive Expr where
  | var
  | conv1 (e : Expr)
  | conv2 (e : Expr)
  | conv3 (e : Expr)
  | se (e : Expr)
  | dropPath (e : Expr)
  | downsample (e : Expr)
  | add (x residual : Expr)
  | act (e : Expr)
  deriving DecidableEq, Repr

/-- Number of activation applications inside an expression. -/
def Expr.actCount : Expr → Nat
  | Expr.var => 0
  | Expr.conv1 e => e.actCount
  | Expr.conv2 e => e.actCount
  | Expr.conv3 e => e.actCount
  | Expr.se e => e.actCount
  | Expr.dropPath e => e.actCount
  | Expr.downsample e => e.actCount
  | Expr.add x residual => x.actCount + residual.actCount
  | Expr.act e => e.actCount + 1

/-- Whether the outermost operation of an expression is the activation. -/
def Expr.isAct : Expr → Bool
  | Expr.act _ => true
  | _ => false

/-- Embedding of SelectiveKernelBasic.forward, line by line: conv1, conv2,
se if present, drop_path if present, downsample of the residual if present,
residual add, final activation. -/
def SelectiveKernelBasic.forward (b : SelectiveKernelBasic) (x : Expr) : Expr :=
  let residual := x
  let x := Expr.conv1 x
  let x := Expr.conv2 x
  let x := if b.se.isSome then Expr.se x else x
  let x := if b.drop_path.isSome then Expr.dropPath x else x
  let residual := if b.downsample.isSome then Expr.downsample residual else residual
  let x := Expr.add x residual
  let x := Expr.act x
  x

/-- Embedding of SelectiveKernelBottleneck.forward, line by line. -/
def SelectiveKernelBottleneck.forward (b : SelectiveKernelBottleneck) (x : Expr) : Expr :=
  let residual := x
  let x := Expr.conv1 x
  let x := Expr.conv2 x
  let x := Expr.conv3 x
  let x := if b.se.isSome then Expr.se x else x
  let x := if b.drop_path.isSome then Expr.dropPath x else x
  let residual := if b.downsample.isSome then Expr.downsample residual else residual
  let x := Expr.add x residual
  let x := Expr.act x
  x

/-- The block class handed to the ResNet backbone builder. -/
inductive BlockType where
  | selectiveKernelBasic
  | selectiveKernelBottleneck
  deriving DecidableEq, Repr

/-- The block_args dict each factory passes: dict(sk_kwargs=sk_kwargs). -/
structure BlockArgs where
  sk_kwargs : SkKwargs
  deriving DecidableEq, Repr

/-- Modelled from the spec: the external ResNet backbone builder is a black
box, so a built backbone is the record of the arguments the factory passes
to it.  stem_width, stem_type and avg_down are none when the factory leaves
them to the builder defaults; kwargs are the uninterpreted pass-through
keyword overrides. -/
structure ResNetArgs where
  block : BlockType
  layers : List Nat
  stem_width : Option Nat := none
  stem_type : Option String := none
  avg_down : Option Bool := none
  num_classes : Nat
  in_chans : Nat
  block_args : BlockArgs
  kwargs : List (String × String) := []
  deriving DecidableEq, Repr

/-- A model returned by a factory: the backbone arguments, the attached
default_cfg dict, and whether the external load_pretrained routine was
invoked (modelled from the spec as a flag, the routine being external). -/
structure Model where
  args : ResNetArgs
  default_cfg : Dict
  pretrained_loaded : Bool
  deriving DecidableEq, Repr

/-- Embedding of the skresnet26d factory.  The key skresnet26d is present in
default_cfgs, so the dict subscript cannot fail; getD [] embeds it. -/
def skresnet26d (pretrained : Bool) (num_classes : Nat) (in_chans : Nat)
    (kwargs : List (String × String)) : Model :=
  let default_cfg := (default_cfgs.lookup "skresnet26d").getD []
  let sk_kwargs : SkKwargs := { keep_3x3 := some false }
  { args :=
    { block := BlockType.selectiveKernelBottleneck, layers := [2, 2, 2, 2],
      stem_width := some 32, stem_type := some "deep", avg_down := some true,
      num_classes := num_classes, in_chans := in_chans,
      block_args := { sk_kwargs := sk_kwargs }, kwargs := kwargs },
    default_cfg := default_cfg,
    pretrained_loaded := pretrained }

/-- Embedding of the skresnet18 factory. -/
def skresnet18 (pretrained : Bool) (num_classes : Nat) (in_chans : Nat)
    (kwargs : List (String × String)) : Model :=
  let default_cfg := (default_cfgs.lookup "skresnet18").getD []
  let sk_kwargs : SkKwargs := { min_attn_channels := some 16 }
  { args :=
    { block := BlockType.selectiveKernelBasic, layers := [2, 2, 2, 2],
      num_classes := num_classes, in_chans := in_chans,
      block_args := { sk_kwargs := sk_kwargs }, kwargs := kwargs },
    default_cfg := default_cfg,
    pretrained_loaded := pretrained }

/-- Embedding of the sksresnet18 factory: identical to skresnet18 except that
sk_kwargs also sets split_input=True, and it reuses the skresnet18 entry of
default_cfgs. -/
def sksresnet18 (pretrained : Bool) (num_classes : Nat) (in_chans : Nat)
    (kwargs : List (String × String)) : Model :=
  let default_cfg := (default_cfgs.lookup "skresnet18").getD []
  let sk_kwargs : SkKwargs := { min_attn_channels := some 16, split_input := some true }
  { args :=
    { block := BlockType.selectiveKernelBasic, layers := [2, 2, 2, 2],
      num_classes := num_classes, in_chans := in_chans,
      block_args := { sk_kwargs := sk_kwargs }, kwargs := kwargs },
    default_cfg := default_cfg,
    pretrained_loaded := pretrained }

/-- The block SelectiveKernelBasic.init builds when its preconditions hold
(derived helper: see basic_init_eq). -/
def basicBlockOf (a : BasicArgs) : SelectiveKernelBasic :=
  { conv1 := ConvStage.sk
      { in_channels := a.inplanes, out_channels := a.planes / a.reduce_first,
        stride := a.stride, dilation := a.first_dilation.getD a.dilation, groups := 1,
        drop_block := a.drop_block, act_layer := some a.act_layer,
        norm_layer := a.norm_layer, sk := a.sk_kwargs.getD {} },
    conv2 := ConvStage.cba
      (ConvBnAct.make (a.planes / a.reduce_first)
        (a.planes * SelectiveKernelBasic.expansion) 3 1 a.dilation
        { drop_block := a.drop_block, act_layer := none, norm_layer := a.norm_layer }),
    se := if a.use_se then
        some { channels := a.planes * SelectiveKernelBasic.expansion,
               reduction_channels := a.planes / 4 }
      else none,
    act := a.act_layer, downsample := a.downsample, stride := a.stride,
    dilation := a.dilation, drop_block := a.drop_block, drop_path := a.drop_path }

/-- When cardinality = 1 and base_width = 64, SelectiveKernelBasic
construction succeeds and yields basicBlockOf. -/
theorem basic_init_eq (a : BasicArgs) (h1 : a.cardinality = 1) (h2 : a.base_width = 64) :
    SelectiveKernelBasic.init a = Except.ok (basicBlockOf a) := by
  unfold SelectiveKernelBasic.init
  rw [h1, h2]
  rfl

/-- C2: SelectiveKernelBasic construction fails precisely when cardinality
is not 1 or base_width is not 64; in particular cardinality=2 and
base_width=32 fail; SelectiveKernelBottleneck construction never fails. -/
theorem construction_failure_iff :
    (∀ a : BasicArgs,
      (SelectiveKernelBasic.init a).isOk = true ↔ (a.cardinality = 1 ∧ a.base_width = 64))
    ∧ (SelectiveKernelBasic.init { inplanes := 64, planes := 64, cardinality := 2 }).isOk = false
    ∧ (SelectiveKernelBasic.init { inplanes := 64, planes := 64, base_width := 32 }).isOk = false
    ∧ ∀ a : BottleneckArgs, (SelectiveKernelBottleneck.init a).isOk = true := by
  refine ⟨?_, by decide, by decide, fun _ => rfl⟩
  intro a
  unfold SelectiveKernelBasic.init
  by_cases h1 : a.cardinality = 1 <;> by_cases h2 : a.base_width = 64 <;>
    simp [h1, h2, Except.isOk, Except.toBool]

/-- C3: for every argument tuple satisfying the preconditions, the final
conv stage of SelectiveKernelBasic outputs planes * 1 channels (its
expansion) and that of SelectiveKernelBottleneck outputs planes * 4
channels (its expansion). -/
theorem block_out_channels : ∀ (a : BasicArgs) (a2 : BottleneckArgs),
    a.cardinality = 1 → a.base_width = 64 →
    (∃ b, SelectiveKernelBasic.init a = Except.ok b ∧
      b.conv2.outChannels = a.planes * 1 ∧
      b.conv2.outChannels = a.planes * SelectiveKernelBasic.expansion)
    ∧ (∃ b2, SelectiveKernelBottleneck.init a2 = Except.ok b2 ∧
      b2.conv3.out_channels = a2.planes * 4 ∧
      b2.conv3.out_channels = a2.planes * SelectiveKernelBottleneck.expansion) := by
  intro a a2 h1 h2
  exact ⟨⟨basicBlockOf a, basic_init_eq a h1 h2, rfl, rfl⟩, ⟨_, rfl, rfl, rfl⟩⟩

/-- C3 witness: both blocks at inplanes = 64, planes = 64. -/
theorem block_out_channels_witness :
    (∃ b, SelectiveKernelBasic.init { inplanes := 64, planes := 64 } = Except.ok b ∧
      b.conv2.outChannels = 64 * 1 ∧
      b.conv2.outChannels = 64 * SelectiveKernelBasic.expansion)
    ∧ (∃ b2, SelectiveKernelBottleneck.init { inplanes := 64, planes := 64 } = Except.ok b2 ∧
      b2.conv3.out_channels = 64 * 4 ∧
      b2.conv3.out_channels = 64 * SelectiveKernelBottleneck.expansion) :=
  block_out_channels { inplanes := 64, planes := 64 } { inplanes := 64, planes := 64 } rfl rfl

/-- C6: for every argument tuple, the selective-kernel stage of
SelectiveKernelBottleneck runs at width = floor(planes * base_width / 64) *
cardinality (exact-arithmetic reading of the float expression in the
source), its first 1x1 stage outputs width / reduce_first channels, and its
final 1x1 stage maps from width to planes * 4 channels. -/
theorem bottleneck_width_pipeline : ∀ a : BottleneckArgs,
    ∃ b, SelectiveKernelBottleneck.init a = Except.ok b ∧
      b.conv2.out_channels = a.planes * a.base_width / 64 * a.cardinality ∧
      b.conv2.in_channels = a.planes * a.base_width / 64 * a.cardinality / a.reduce_first ∧
      b.conv1.out_channels = a.planes * a.base_width / 64 * a.cardinality / a.reduce_first ∧
      b.conv1.kernel_size = 1 ∧
      b.conv3.in_channels = a.planes * a.base_width / 64 * a.cardinality ∧
      b.conv3.out_channels = a.planes * 4 ∧
      b.conv3.kernel_size = 1 := by
  intro a
  exact ⟨_, rfl, rfl, rfl, rfl, rfl, rfl, rfl, rfl⟩

/-- C1 counterexample: calling skresnet18 with num_classes = 10 attaches a
configuration dict whose num_classes entry is 1000, not the argument 10. -/
theorem default_cfg_num_classes_counterexample :
    ¬((skresnet18 false 10 3 []).default_cfg.lookup "num_classes" = some (CfgVal.n 10)) := by
  decide

/-- C1 amended: each of the three factories attaches a configuration dict
containing the keys num_classes and input_size, whose values are the fixed
table entries 1000 and (3, 224, 224) for every call argument tuple (so they
equal the call arguments only when those are the defaults). -/
theorem default_cfg_keys_fixed : ∀ (p : Bool) (n c : Nat) (k : List (String × String)),
    (skresnet18 p n c k).default_cfg.lookup "num_classes" = some (CfgVal.n 1000)
    ∧ (skresnet18 p n c k).default_cfg.lookup "input_size" = some (CfgVal.triple 3 224 224)
    ∧ (sksresnet18 p n c k).default_cfg.lookup "num_classes" = some (CfgVal.n 1000)
    ∧ (sksresnet18 p n c k).default_cfg.lookup "input_size" = some (CfgVal.triple 3 224 224)
    ∧ (skresnet26d p n c k).default_cfg.lookup "num_classes" = some (CfgVal.n 1000)
    ∧ (skresnet26d p n c k).default_cfg.lookup "input_size" = some (CfgVal.triple 3 224 224) := by
  intro p n c k
  exact ⟨rfl, rfl, rfl, rfl, rfl, rfl⟩

/-- C4: on a freshly constructed block, zero_init_last_bn sets the scale
(weight) parameter of the final normalization layer to all zeros (conv2 for
SelectiveKernelBasic, conv3 for SelectiveKernelBottleneck) and leaves every
other component of the block unchanged. -/
theorem zero_init_last_bn_frame : ∀ (a : BasicArgs) (a2 : BottleneckArgs),
    a.cardinality = 1 → a.base_width = 64 →
    (∃ b b' c c', SelectiveKernelBasic.init a = Except.ok b ∧
      b.zero_init_last_bn = some b' ∧
      b.conv2 = ConvStage.cba c ∧ b'.conv2 = ConvStage.cba c' ∧
      c'.bn.weight = List.replicate c.bn.weight.length 0 ∧
      c'.bn.bias = c.bn.bias ∧ c'.in_channels = c.in_channels ∧
      c'.out_channels = c.out_channels ∧ c'.kernel_size = c.kernel_size ∧
      c'.stride = c.stride ∧ c'.dilation = c.dilation ∧
      c'.drop_block = c.drop_block ∧ c'.act_layer = c.act_layer ∧
      c'.norm_layer = c.norm_layer ∧
      b'.conv1 = b.conv1 ∧ b'.se = b.se ∧ b'.act = b.act ∧
      b'.downsample = b.downsample ∧ b'.stride = b.stride ∧
      b'.dilation = b.dilation ∧ b'.drop_block = b.drop_block ∧
      b'.drop_path = b.drop_path)
    ∧ (∃ b2, SelectiveKernelBottleneck.init a2 = Except.ok b2 ∧
      b2.zero_init_last_bn.conv3.bn.weight = List.replicate b2.conv3.bn.weight.length 0 ∧
      b2.zero_init_last_bn.conv3.bn.bias = b2.conv3.bn.bias ∧
      b2.zero_init_last_bn.conv3.in_channels = b2.conv3.in_channels ∧
      b2.zero_init_last_bn.conv3.out_channels = b2.conv3.out_channels ∧
      b2.zero_init_last_bn.conv3.kernel_size = b2.conv3.kernel_size ∧
      b2.zero_init_last_bn.conv3.stride = b2.conv3.stride ∧
      b2.zero_init_last_bn.conv3.dilation = b2.conv3.dilation ∧
      b2.zero_init_last_bn.conv3.drop_block = b2.conv3.drop_block ∧
      b2.zero_init_last_bn.conv3.act_layer = b2.conv3.act_layer ∧
      b2.zero_init_last_bn.conv3.norm_layer = b2.conv3.norm_layer ∧
      b2.zero_init_last_bn.conv1 = b2.conv1 ∧
      b2.zero_init_last_bn.conv2 = b2.conv2 ∧
      b2.zero_init_last_bn.se = b2.se ∧ b2.zero_init_last_bn.act = b2.act ∧
      b2.zero_init_last_bn.downsample = b2.downsample ∧
      b2.zero_init_last_bn.stride = b2.stride ∧
      b2.zero_init_last_bn.dilation = b2.dilation ∧
      b2.zero_init_last_bn.drop_block = b2.drop_block ∧
      b2.zero_init_last_bn.drop_path = b2.drop_path) := by
  intro a a2 h1 h2
  exact ⟨⟨basicBlockOf a, _, _, _, basic_init_eq a h1 h2, rfl, rfl, rfl, rfl, rfl,
      rfl, rfl, rfl, rfl, rfl, rfl, rfl, rfl, rfl, rfl, rfl, rfl, rfl, rfl, rfl, rfl⟩,
    ⟨_, rfl, rfl, rfl, rfl, rfl, rfl, rfl, rfl, rfl, rfl, rfl, rfl, rfl, rfl, rfl,
      rfl, rfl, rfl, rfl, rfl⟩⟩

/-- C4 witness: both blocks at inplanes = 64, planes = 64. -/
theorem zero_init_last_bn_frame_witness :
    (∃ b b' c c',
      SelectiveKernelBasic.init { inplanes := 64, planes := 64 } = Except.ok b ∧
      b.zero_init_last_bn = some b' ∧
      b.conv2 = ConvStage.cba c ∧ b'.conv2 = ConvStage.cba c' ∧
      c'.bn.weight = List.replicate c.bn.weight.length 0 ∧
      c'.bn.bias = c.bn.bias ∧ c'.in_channels = c.in_channels ∧
      c'.out_channels = c.out_channels ∧ c'.kernel_size = c.kernel_size ∧
      c'.stride = c.stride ∧ c'.dilation = c.dilation ∧
      c'.drop_block = c.drop_block ∧ c'.act_layer = c.act_layer ∧
      c'.norm_layer = c.norm_layer ∧
      b'.conv1 = b.conv1 ∧ b'.se = b.se ∧ b'.act = b.act ∧
      b'.downsample = b.downsample ∧ b'.stride = b.stride ∧
      b'.dilation = b.dilation ∧ b'.drop_block = b.drop_block ∧
      b'.drop_path = b.drop_path)
    ∧ (∃ b2,
      SelectiveKernelBottleneck.init { inplanes := 64, planes := 64 } = Except.ok b2 ∧
      b2.zero_init_last_bn.conv3.bn.weight = List.replicate b2.conv3.bn.weight.length 0 ∧
      b2.zero_init_last_bn.conv3.bn.bias = b2.conv3.bn.bias ∧
      b2.zero_init_last_bn.conv3.in_channels = b2.conv3.in_channels ∧
      b2.zero_init_last_bn.conv3.out_channels = b2.conv3.out_channels ∧
      b2.zero_init_last_bn.conv3.kernel_size = b2.conv3.kernel_size ∧
      b2.zero_init_last_bn.conv3.stride = b2.conv3.stride ∧
      b2.zero_init_last_bn.conv3.dilation = b2.conv3.dilation ∧
      b2.zero_init_last_bn.conv3.drop_block = b2.conv3.drop_block ∧
      b2.zero_init_last_bn.conv3.act_layer = b2.conv3.act_layer ∧
      b2.zero_init_last_bn.conv3.norm_layer = b2.conv3.norm_layer ∧
      b2.zero_init_last_bn.conv1 = b2.conv1 ∧
      b2.zero_init_last_bn.conv2 = b2.conv2 ∧
      b2.zero_init_last_bn.se = b2.se ∧ b2.zero_init_last_bn.act = b2.act ∧
      b2.zero_init_last_bn.downsample = b2.downsample ∧
      b2.zero_init_last_bn.stride = b2.stride ∧
      b2.zero_init_last_bn.dilation = b2.dilation ∧
      b2.zero_init_last_bn.drop_block = b2.drop_block ∧
      b2.zero_init_last_bn.drop_path = b2.drop_path) :=
  zero_init_last_bn_frame { inplanes := 64, planes := 64 } { inplanes := 64, planes := 64 }
    rfl rfl

/-- C5: for every common argument tuple, the model built by sksresnet18 is
exactly the model built by skresnet18 with split_input set to True in the
selective-kernel sub-configuration; both pass min_attn_channels = 16, and
block type, stage depths, stem configuration, classifier arguments,
pass-through kwargs, attached configuration dict and pretrained handling
all coincide. -/
theorem sksresnet18_vs_skresnet18 : ∀ (p : Bool) (n c : Nat) (k : List (String × String)),
    sksresnet18 p n c k =
      { skresnet18 p n c k with args :=
        { (skresnet18 p n c k).args with block_args :=
          { sk_kwargs :=
            { (skresnet18 p n c k).args.block_args.sk_kwargs with split_input := some true } } } }
    ∧ (skresnet18 p n c k).args.block_args.sk_kwargs.min_attn_channels = some 16
    ∧ (sksresnet18 p n c k).args.block_args.sk_kwargs.min_attn_channels = some 16
    ∧ (skresnet18 p n c k).args.block_args.sk_kwargs.split_input = none
    ∧ (sksresnet18 p n c k).args.block_args.sk_kwargs.split_input = some true
    ∧ (skresnet18 p n c k).args.block = (sksresnet18 p n c k).args.block
    ∧ (skresnet18 p n c k).args.layers = (sksresnet18 p n c k).args.layers
    ∧ (skresnet18 p n c k).args.stem_width = (sksresnet18 p n c k).args.stem_width
    ∧ (skresnet18 p n c k).args.stem_type = (sksresnet18 p n c k).args.stem_type
    ∧ (skresnet18 p n c k).args.avg_down = (sksresnet18 p n c k).args.avg_down
    ∧ (skresnet18 p n c k).args.num_classes = (sksresnet18 p n c k).args.num_classes
    ∧ (skresnet18 p n c k).args.in_chans = (sksresnet18 p n c k).args.in_chans
    ∧ (skresnet18 p n c k).args.kwargs = (sksresnet18 p n c k).args.kwargs
    ∧ (skresnet18 p n c k).default_cfg = (sksresnet18 p n c k).default_cfg
    ∧ (skresnet18 p n c k).pretrained_loaded = (sksresnet18 p n c k).pretrained_loaded := by
  intro p n c k
  repeat' apply And.intro
  all_goals rfl

/-- C7: each forward pass applies its conv stages in order, then the
squeeze-excite rescaling exactly when configured, then drop-path exactly
when configured, then adds the residual (the input, downsampled exactly
when a downsample is configured) and applies the activation once, last. -/
theorem forward_structure :
    (∀ (b : SelectiveKernelBasic) (x : Expr),
      b.forward x = Expr.act (Expr.add
        ((if b.drop_path.isSome then Expr.dropPath else id)
          ((if b.se.isSome then Expr.se else id) (Expr.conv2 (Expr.conv1 x))))
        ((if b.downsample.isSome then Expr.downsample else id) x))
      ∧ (b.forward Expr.var).isAct = true
      ∧ (b.forward Expr.var).actCount = 1)
    ∧ (∀ (b : SelectiveKernelBottleneck) (x : Expr),
      b.forward x = Expr.act (Expr.add
        ((if b.drop_path.isSome then Expr.dropPath else id)
          ((if b.se.isSome then Expr.se else id)
            (Expr.conv3 (Expr.conv2 (Expr.conv1 x)))))
        ((if b.downsample.isSome then Expr.downsample else id) x))
      ∧ (b.forward Expr.var).isAct = true
      ∧ (b.forward Expr.var).actCount = 1) := by
  constructor
  · intro b x
    cases hse : b.se.isSome <;> cases hdp : b.drop_path.isSome <;>
      cases hds : b.downsample.isSome <;>
        simp [SelectiveKernelBasic.forward, hse, hdp, hds, Expr.isAct, Expr.actCount]
  · intro b x
    cases hse : b.se.isSome <;> cases hdp : b.drop_path.isSome <;>
      cases hds : b.downsample.isSome <;>
        simp [SelectiveKernelBottleneck.forward, hse, hdp, hds, Expr.isAct, Expr.actCount]

/-- C8: the internal flag is True in the shipped source, so for every
successful construction of SelectiveKernelBasic, conv1 is the
selective-kernel convolution (receiving the stride, the first dilation and
the sk_kwargs) and conv2 is the plain conv+norm stage built with its
activation layer disabled; the second-position branch is never taken. -/
theorem basic_selective_first : _selective_first = true ∧
    ∀ a : BasicArgs, a.cardinality = 1 → a.base_width = 64 →
    ∃ b, SelectiveKernelBasic.init a = Except.ok b ∧
      (∃ c, b.conv1 = ConvStage.sk c ∧ c.stride = a.stride ∧
        c.dilation = a.first_dilation.getD a.dilation ∧ c.in_channels = a.inplanes ∧
        c.sk = a.sk_kwargs.getD {} ∧ c.act_layer = some a.act_layer) ∧
      (∃ c2, b.conv2 = ConvStage.cba c2 ∧ c2.act_layer = none ∧ c2.kernel_size = 3 ∧
        c2.in_channels = a.planes / a.reduce_first ∧
        c2.out_channels = a.planes * SelectiveKernelBasic.expansion) :=
  ⟨rfl, fun a h1 h2 =>
    ⟨basicBlockOf a, basic_init_eq a h1 h2,
      ⟨_, rfl, rfl, rfl, rfl, rfl, rfl⟩, ⟨_, rfl, rfl, rfl, rfl, rfl⟩⟩⟩

/-- C8 witness: at inplanes = 64, planes = 64 with the default arguments. -/
theorem basic_selective_first_witness :
    ∃ b, SelectiveKernelBasic.init { inplanes := 64, planes := 64 } = Except.ok b ∧
      (∃ c, b.conv1 = ConvStage.sk c ∧ c.stride = 1 ∧
        c.dilation = 1 ∧ c.in_channels = 64 ∧
        c.sk = ({} : SkKwargs) ∧ c.act_layer = some ActLayer.relu) ∧
      (∃ c2, b.conv2 = ConvStage.cba c2 ∧ c2.act_layer = none ∧ c2.kernel_size = 3 ∧
        c2.in_channels = 64 ∧ c2.out_channels = 64) :=
  basic_selective_first.2 { inplanes := 64, planes := 64 } rfl rfl

/-- C9: skresnet26d delegates to the backbone builder with the
SelectiveKernelBottleneck block, stage depths [2, 2, 2, 2], a deep stem of
width 32 with average-pool downsampling and sk_kwargs keep_3x3 = False; the
pretrained loader runs exactly when pretrained is true, hence never on
pretrained = false. -/
theorem skresnet26d_delegation : ∀ (p : Bool) (n c : Nat) (k : List (String × String)),
    (skresnet26d p n c k).args.block = BlockType.selectiveKernelBottleneck
    ∧ (skresnet26d p n c k).args.layers = [2, 2, 2, 2]
    ∧ (skresnet26d p n c k).args.stem_width = some 32
    ∧ (skresnet26d p n c k).args.stem_type = some "deep"
    ∧ (skresnet26d p n c k).args.avg_down = some true
    ∧ (skresnet26d p n c k).args.num_classes = n
    ∧ (skresnet26d p n c k).args.in_chans = c
    ∧ (skresnet26d p n c k).args.kwargs = k
    ∧ (skresnet26d p n c k).args.block_args.sk_kwargs = { keep_3x3 := some false }
    ∧ (skresnet26d p n c k).pretrained_loaded = p
    ∧ (skresnet26d false n c k).pretrained_loaded = false := by
  intro p n c k
  repeat' apply And.intro
  all_goals rfl

/-- C10: the default-config table has exactly the keys skresnet18 and
skresnet26d, their two dicts are equal (the empty url passed for skresnet18
equals the default url), sksresnet18 reuses the skresnet18 entry, and all
three factories attach dicts with identical contents. -/
theorem default_cfgs_table :
    default_cfgs.map Prod.fst = ["skresnet18", "skresnet26d"]
    ∧ _cfg "" [] = _cfg cfgDefaultUrl []
    ∧ default_cfgs.lookup "skresnet18" = default_cfgs.lookup "skresnet26d"
    ∧ ∀ (p : Bool) (n c : Nat) (k : List (String × String)),
      (sksresnet18 p n c k).default_cfg = (default_cfgs.lookup "skresnet18").getD []
      ∧ (skresnet18 p n c k).default_cfg = (sksresnet18 p n c k).default_cfg
      ∧ (skresnet26d p n c k).default_cfg = (skresnet18 p n c k).default_cfg := by
  refine ⟨rfl, rfl, rfl, ?_⟩
  intro p n c k
  exact ⟨rfl, rfl, rfl⟩

end Sknet
